import Mathlib

/-!
Verification of the Flask API server of the Music_Recommender repository
(`api_server.py`) via a shallow embedding in Lean 4.

The embedding models:
* JSON values (`Json`) as exchanged by the HTTP handlers and the tool process;
* Python runtime errors (`PyErr`) as they flow to the generic `except` handler;
* the in-memory log ring buffer (`deque(maxlen=1000)`, `add_log`, `get_logs`);
* the tag tokenizer of the `/recommend` handler;
* the `/recommend` handler itself as a computation in a writer/exception
  monad `M` over an environment `Env` recording the outcomes of the external
  collaborators (memory store, perception, MCP tool process, decision maker).

External collaborators (the `memory`, `perception`, `decisions` modules, the
`mcp` client library and the Gemini API) are not part of the source file under
review; their outcomes for one request are abstracted as fields of `Env`.
Python's `json.loads` is likewise abstracted as `Env.parseJson`.
-/

/-- JSON values, the data exchanged by the handlers.  Numbers are modelled as
integers (no claim involves fractional numbers). -/
inductive Json where
  | null
  | bool (b : Bool)
  | num (n : Int)
  | str (s : String)
  | arr (xs : List Json)
  | obj (kvs : List (String × Json))

/-- Python exceptions as observed by the top-level `except Exception` handler.
`attrError`, `keyError`, `typeError` model the built-in exception classes the
handler's own code can raise; `communicationError` and `toolInvocationError`
are the two dedicated error classes the specification document speaks of, and
`other` stands for any further exception class arriving from a collaborator. -/
inductive PyErr where
  | attrError (m : String)
  | keyError (k : String)
  | typeError (m : String)
  | communicationError (m : String)
  | toolInvocationError (m : String)
  | other (m : String)
deriving DecidableEq

/-- `str(e)` of a Python exception, as used in `jsonify({"error": str(e)})`.
For `KeyError` Python prints the repr of the key, hence the quotes. -/
def PyErr.msg : PyErr → String
  | .attrError m => m
  | .keyError k => "'" ++ k ++ "'"
  | .typeError m => m
  | .communicationError m => m
  | .toolInvocationError m => m
  | .other m => m

/-- `d.get(k, default)` on a Python dict represented as an association list. -/
def pyGet (d : List (String × Json)) (k : String) (dflt : Json) : Json :=
  match d.find? (fun kv => kv.1 == k) with
  | some kv => kv.2
  | none => dflt

/-- Key lookup on a JSON object; `none` on a non-object or a missing key. -/
def jLookup (v : Json) (k : String) : Option Json :=
  match v with
  | .obj kvs =>
    match kvs.find? (fun kv => kv.1 == k) with
    | some kv => some kv.2
    | none => none
  | _ => none

/-- Python subscripting `v[k]` on a decoded JSON value: `KeyError` on a
missing key, `TypeError` when the value is not a dict. -/
def pyIndex (v : Json) (k : String) : Except PyErr Json :=
  match v with
  | .obj kvs =>
    match kvs.find? (fun kv => kv.1 == k) with
    | some kv => Except.ok kv.2
    | none => Except.error (PyErr.keyError k)
  | _ => Except.error (PyErr.typeError "object is not subscriptable")

/-- Python truthiness of a decoded JSON value. -/
def pyTruthy : Json → Bool
  | .null => false
  | .bool b => b
  | .num n => n != 0
  | .str s => s != ""
  | .arr xs => !xs.isEmpty
  | .obj kvs => !kvs.isEmpty

/-- Python `len(v)`: defined for strings, lists and dicts, `TypeError`
otherwise. -/
def pyLen : Json → Except PyErr Nat
  | .str s => Except.ok s.length
  | .arr xs => Except.ok xs.length
  | .obj kvs => Except.ok kvs.length
  | _ => Except.error (PyErr.typeError "object has no len()")

/-- Python `v[0]`: first element of a list, one-character string of a string,
error otherwise (`KeyError` on a dict, `TypeError` on scalars). -/
def pyGetItem0 : Json → Except PyErr Json
  | .arr (x :: _) => Except.ok x
  | .arr [] => Except.error (PyErr.other "IndexError: list index out of range")
  | .str s =>
    match s.data with
    | c :: _ => Except.ok (Json.str (String.mk [c]))
    | [] => Except.error (PyErr.other "IndexError: string index out of range")
  | .obj _ => Except.error (PyErr.keyError "0")
  | _ => Except.error (PyErr.typeError "object is not subscriptable")

/-- `v.get(k, default)` where `v` is known to be a dict (used only under an
`isinstance(v, dict)` guard in the source; the non-dict case returns the
default and is unreachable there). -/
def jGetD (v : Json) (k : String) (dflt : Json) : Json :=
  match v with
  | .obj kvs =>
    match kvs.find? (fun kv => kv.1 == k) with
    | some kv => kv.2
    | none => dflt
  | _ => dflt

/-- `isinstance(v, dict)`. -/
def isDict : Json → Bool
  | .obj _ => true
  | _ => false

mutual
/-- `json.dumps` rendering of a JSON value (used only inside log-message
text; the exact separator conventions do not affect any claim). -/
def jsonDumps : Json → String
  | .null => "null"
  | .bool true => "true"
  | .bool false => "false"
  | .num n => toString n
  | .str s => "\"" ++ s ++ "\""
  | .arr xs => "[" ++ jsonDumpsArr xs ++ "]"
  | .obj kvs => "\x7b" ++ jsonDumpsObj kvs ++ "\x7d"

def jsonDumpsArr : List Json → String
  | [] => ""
  | [x] => jsonDumps x
  | x :: xs => jsonDumps x ++ ", " ++ jsonDumpsArr xs

def jsonDumpsObj : List (String × Json) → String
  | [] => ""
  | [kv] => "\"" ++ kv.1 ++ "\": " ++ jsonDumps kv.2
  | kv :: kvs => "\"" ++ kv.1 ++ "\": " ++ jsonDumps kv.2 ++ ", " ++ jsonDumpsObj kvs
end

/-- Python `str(v)` of a decoded JSON value, as interpolated into f-strings.
Containers are approximated by their JSON rendering; the value is used only
inside log-message text. -/
def pyToStr (v : Json) : String :=
  match v with
  | .str s => s
  | .bool true => "True"
  | .bool false => "False"
  | .null => "None"
  | .num n => toString n
  | v => jsonDumps v

/-! ## String helpers: `str.strip`, `str.split` (`api_server.py` line 76-90)

These model Python's `str.strip()` (no argument: strip whitespace on both
sides), `str.split(",")` (split at every comma, keeping empty pieces) and
`str.split()` (no argument: split at whitespace runs, dropping empty pieces).
They are written over `List Char`; `pyStrip` lifts stripping to `String`. -/

/-- `t.strip()` on a character list: drop leading and trailing whitespace. -/
def pyStripChars (cs : List Char) : List Char :=
  ((cs.dropWhile Char.isWhitespace).reverse.dropWhile Char.isWhitespace).reverse

/-- `s.strip()` on a string. -/
def pyStrip (s : String) : String := String.mk (pyStripChars s.data)

/-- Split a character list at every character satisfying `p`, keeping empty
pieces — the semantics of Python's `str.split(sep)` with `p = (· == sep)`.
The result is always nonempty. -/
def splitKeepP (p : Char → Bool) : List Char → List (List Char)
  | [] => [[]]
  | c :: cs =>
    if p c then [] :: splitKeepP p cs
    else
      match splitKeepP p cs with
      | t :: ts => (c :: t) :: ts
      | [] => [[c]]

/-- `s.split(",")`. -/
def pySplitCommaChars (cs : List Char) : List (List Char) :=
  splitKeepP (fun c => c == ',') cs

/-- `s.split()` (no argument): split at whitespace runs, dropping empty
pieces.  `acc` holds the characters of the current token in reverse. -/
def wsSplitAux : List Char → List Char → List (List Char)
  | [], acc => if acc.isEmpty then [] else [acc.reverse]
  | c :: cs, acc =>
    if c.isWhitespace then
      if acc.isEmpty then wsSplitAux cs [] else acc.reverse :: wsSplitAux cs []
    else wsSplitAux cs (c :: acc)

/-- `s.split()` (no argument). -/
def pySplitWsChars (cs : List Char) : List (List Char) := wsSplitAux cs []

/-- The tag tokenizer of the `/recommend` handler (`api_server.py` line 90):
`[t.strip() for t in (tags_raw.split(",") if "," in tags_raw else
tags_raw.split()) if t.strip()]`. -/
def parseTagsChars (cs : List Char) : List (List Char) :=
  (if ',' ∈ cs then pySplitCommaChars cs else pySplitWsChars cs).filterMap
    (fun t => if (pyStripChars t).isEmpty then none else some (pyStripChars t))

/-- The tag tokenizer on strings, as applied to `tags_raw`. -/
def parseTagsStr (s : String) : List String :=
  (parseTagsChars s.data).map String.mk

/-- The tokens the specification describes: split on commas when a comma is
present, otherwise at whitespace positions; trim every token; discard the
empty ones; keep the order.  (This is the claim-side phrasing, to be compared
with `parseTagsChars` translated from the source.) -/
def claimTokens (cs : List Char) : List (List Char) :=
  (((if ',' ∈ cs then splitKeepP (fun c => c == ',') cs
     else splitKeepP Char.isWhitespace cs).map pyStripChars).filter
    (fun t => !t.isEmpty))

/-! ## The log ring buffer (`api_server.py` lines 26-47)

`logs = deque(maxlen=1000)`; `add_log` appends (evicting the oldest entry at
capacity) and `get_logs(limit)` returns `list(logs)[-limit:]`.  The buffer is
modelled as a list with the oldest entry first. -/

/-- One entry of the log buffer (`add_log`, lines 30-40). -/
structure LogEntry where
  timestamp : String
  level : String
  message : String
  data : Json

/-- JSON rendering of a log entry, as `jsonify` serializes it. -/
def logEntryToJson (e : LogEntry) : Json :=
  Json.obj [("timestamp", Json.str e.timestamp), ("level", Json.str e.level),
            ("message", Json.str e.message), ("data", e.data)]

/-- `deque(maxlen=cap).append`: append on the right, evicting from the left
whatever exceeds the capacity. -/
def dequeAppend (cap : Nat) (buf : List LogEntry) (x : LogEntry) : List LogEntry :=
  (buf ++ [x]).drop ((buf ++ [x]).length - cap)

/-- Python slicing `l[s:]` with an arbitrary (possibly negative) start:
a negative start counts from the end; both directions clamp to the list. -/
def pySliceFrom (l : List LogEntry) (s : Int) : List LogEntry :=
  l.drop (if s < 0 then (max 0 ((l.length : Int) + s)).toNat
          else (min (l.length : Int) s).toNat)

/-- `get_logs(limit)` (lines 44-47): `list(logs)[-limit:]`. -/
def get_logs (logs : List LogEntry) (limit : Int) : List LogEntry :=
  pySliceFrom logs (-limit)

/-- `get_logs` as a state transformer: it reads the buffer under the lock and
returns a fresh list; the buffer itself is left as it was. -/
def get_logs_op (logs : List LogEntry) (limit : Int) :
    List LogEntry × List LogEntry :=
  (get_logs logs limit, logs)

/-- The `GET /logs` endpoint body (lines 244-252):
`{"logs": log_entries, "count": len(log_entries)}`. -/
def get_logs_endpoint (logs : List LogEntry) (limit : Int) : Json :=
  Json.obj [("logs", Json.arr ((get_logs logs limit).map logEntryToJson)),
            ("count", Json.num (get_logs logs limit).length)]

/-! ## The `/recommend` handler (`api_server.py` lines 70-232)

The handler is embedded as a computation in a writer/exception monad `M`:
the writer part records the observable events of the request (each `add_log`
call and each call to an external collaborator), the exception part models
Python exceptions flowing to the `except Exception` block.  The outcomes of
the external collaborators for the request under consideration are the fields
of `Env`. -/

/-- An observable event of one `/recommend` request: an `add_log` call, or a
call into one of the external collaborators. -/
inductive Event where
  | log (level message : String)
  | memWrite
  | perceiveLocal
  | perceiveGemini
  | listTools
  | decide
  | toolCall
deriving DecidableEq

/-- The level of a log event, `none` for collaborator-call events. -/
def eventLevel : Event → Option String
  | .log l _ => some l
  | _ => none

/-- The levels of the log events of a trace. -/
def levelsOf (evs : List Event) : List String := evs.filterMap eventLevel

/-- The handler monad: an event trace accumulator plus Python exceptions. -/
def M (α : Type) : Type := List Event → List Event × Except PyErr α

/-- `pure` of `M`. -/
def M.pure (a : α) : M α := fun evs => (evs, Except.ok a)

/-- `bind` of `M`: sequence two steps, short-circuiting on an exception and
keeping the trace accumulated so far. -/
def M.bind (m : M α) (f : α → M β) : M β := fun evs =>
  match m evs with
  | (evs', Except.ok a) => f a evs'
  | (evs', Except.error e) => (evs', Except.error e)

instance : Monad M where
  pure := M.pure
  bind := M.bind

/-- `add_log(level, message)`: appends one log event.  (The timestamp and the
`data` dict of the Python entry carry no information any claim inspects; the
trace records level and message.) -/
def logM (level message : String) : M Unit :=
  fun evs => (evs ++ [Event.log level message], Except.ok ())

/-- Run a local (non-collaborator) Python expression that may raise. -/
def liftE (x : Except PyErr α) : M α := fun evs => (evs, x)

/-- Call an external collaborator: the call itself is recorded as an event,
then its outcome (normal return or exception) is delivered. -/
def callExt (ev : Event) (x : Except PyErr α) : M α :=
  fun evs => (evs ++ [ev], x)

/-- One tool of the MCP catalog (`tools_result.tools` items): `name`,
optional `description`, and the `inputSchema` JSON value. -/
structure Tool where
  name : String
  description : Option String
  inputSchema : Json

/-- One item of `result.content` from `session.call_tool`: its `.text`
attribute when present, and its `str()` rendering as the fallback. -/
structure ContentItem where
  text : Option String
  fallback : String

/-- The outcomes of the external collaborators for one `/recommend` request.
Each field is the result (or exception) of the corresponding external call;
`parseJson` abstracts Python's `json.loads` (returning `none` exactly on the
strings that are not valid JSON). -/
structure Env where
  addMemory : Except PyErr String
  perceiveUserInput : Except PyErr String
  perceiveGemini : Except PyErr Json
  listSessionStart : Except PyErr Unit
  listToolsResult : Except PyErr (List Tool)
  makeDecision : Except PyErr Json
  callSessionStart : Except PyErr Unit
  callToolResult : Except PyErr (List ContentItem)
  parseJson : String → Option Json

/-- `get_tools_list` (lines 129-134): open the stdio channel and initialize
the session (`listSessionStart`), then request the catalog.  The source wraps
neither step in a `try`: any exception propagates unchanged. -/
def get_tools_list (env : Env) : Except PyErr (List Tool) :=
  match env.listSessionStart with
  | Except.error e => Except.error e
  | Except.ok _ => env.listToolsResult

/-- `call_tool_with_session` (lines 182-192): open the stdio channel and
initialize the session (`callSessionStart`), invoke the tool, then take the
first content item's `.text` (its `str()` otherwise), or the literal `"[]"`
when the content is empty.  No step is wrapped in a `try`. -/
def call_tool_with_session (env : Env) : Except PyErr String :=
  match env.callSessionStart with
  | Except.error e => Except.error e
  | Except.ok _ =>
    match env.callToolResult with
    | Except.error e => Except.error e
    | Except.ok content =>
      match content with
      | [] => Except.ok "[]"
      | c :: _ => Except.ok (c.text.getD c.fallback)

/-- The per-tool description line (lines 141-160).  The loop body is wrapped
in a `try` whose handler appends an "Error processing tool" line; the body
raises exactly when `inputSchema` is not a dict (the `in` test), or when some
entry of its `properties` dict is itself not a dict (the `.get` call). -/
def toolDescEntry (i : Nat) (t : Tool) : String :=
  match t.inputSchema with
  | Json.obj kvs =>
    match (Json.obj kvs |> fun p => jLookup p "properties") with
    | some (Json.obj props) =>
      if props.all (fun kv => isDict kv.2) then
        toString (i + 1) ++ ". " ++ t.name ++ "(" ++
          String.intercalate ", "
            (props.map (fun kv =>
              kv.1 ++ ": " ++ pyToStr (jGetD kv.2 "type" (Json.str "unknown")))) ++
          ") - " ++ t.description.getD "No description available"
      else toString (i + 1) ++ ". Error processing tool"
    | some _ => toString (i + 1) ++ ". Error processing tool"
    | none =>
      toString (i + 1) ++ ". " ++ t.name ++ "(no parameters) - " ++
        t.description.getD "No description available"
  | _ => toString (i + 1) ++ ". Error processing tool"

/-- `tools_description_list` (lines 140-161). -/
def toolsDescriptionList (tools : List Tool) : List String :=
  (tools.enum.map fun ti => toolDescEntry ti.1 ti.2)

/-- Payload parsing (lines 197-205): `json.loads` of the tool result string;
a parse failure is logged as a WARNING and degrades to the empty list. -/
def parsePayload (env : Env) (payloadStr : String) : M Json :=
  fun evs =>
    match env.parseJson payloadStr with
    | some j => (evs, Except.ok j)
    | none =>
      (evs ++ [Event.log "WARNING"
        ("⚠️ Failed to parse payload as JSON: " ++ payloadStr)], Except.ok (Json.arr []))

/-- The payload report block (lines 211-218): `if payload and len(payload) >
0:` logs the count and — when the first item is a dict — the top
recommendation; otherwise a "no recommendations" WARNING. -/
def reportPayload (payload : Json) : M Unit := do
  if pyTruthy payload then do
    let n ← liftE (pyLen payload)
    if n > 0 then do
      logM "SUCCESS" ("🎶 Received " ++ toString n ++ " recommendation(s)")
      let p0 ← liftE (pyGetItem0 payload)
      if isDict p0 then
        logM "INFO" ("🎵 Top recommendation: " ++
          pyToStr (jGetD p0 "song" (Json.str "Unknown")) ++ " by " ++
          pyToStr (jGetD p0 "artist" (Json.str "Unknown")))
      else M.pure ()
    else logM "WARNING" "⚠️ No recommendations received"
  else logM "WARNING" "⚠️ No recommendations received"

/-- The JSON body of the HTTP 200 response (lines 222-228). -/
def successBody (recommendations reasoning : Json) (mem_id : String)
    (perception : Json) : Json :=
  Json.obj [("success", Json.bool true),
            ("recommendations", recommendations),
            ("reasoning", reasoning),
            ("memory_id", Json.str mem_id),
            ("perception", perception)]

/-- A parsed request body: a Python dict of JSON values. -/
def PyDict : Type := List (String × Json)

/-- `data = request.json` followed by the first attribute access: a missing
or non-JSON body makes `request.json` `None`, and `None.get(...)` raises
`AttributeError`. -/
def getJsonAttr : Option PyDict → M PyDict
  | some d => M.pure d
  | none => liftE (Except.error (PyErr.attrError "'NoneType' object has no attribute 'get'"))

/-- `.strip()` on the result of `data.get(k, '')`: succeeds exactly on
strings (a non-string field value makes the attribute access raise). -/
def stripAttr : Json → Except PyErr String
  | Json.str s => Except.ok (pyStrip s)
  | _ => Except.error (PyErr.attrError "object has no attribute strip")

/-- The post-validation part of the `/recommend` handler (lines 87-228):
store the input, build the perceptions, list the tools, decide, invoke the
tool, normalize the payload and shape the 200 response. -/
def pipeline (env : Env) (mood activity current_loc tags_raw : String) :
    M (Json × Nat) := do
  let _tags := if tags_raw = "" then [] else parseTagsStr tags_raw
  logM "INFO" "💾 Storing inputs in memory..."
  let mem_id ← callExt Event.memWrite env.addMemory
  logM "SUCCESS" ("✅ Stored to short-term memory: " ++ mem_id)
  logM "INFO" "🧠 Building perception layer..."
  let _user_input ← callExt Event.perceiveLocal env.perceiveUserInput
  logM "INFO" "🤖 Calling Gemini Perception Layer..."
  let gem_perception ← callExt Event.perceiveGemini env.perceiveGemini
  logM "SUCCESS" ("✅ Gemini perception completed: " ++ jsonDumps gem_perception)
  logM "INFO" "🔧 Getting MCP tools list..."
  let tools ← callExt Event.listTools (get_tools_list env)
  logM "SUCCESS" ("✅ Found " ++ toString tools.length ++ " available tools")
  let _tools_description := String.intercalate "\n" (toolsDescriptionList tools)
  let available_tool_names := tools.map Tool.name
  logM "INFO" ("📋 Available tools: " ++ String.intercalate ", " available_tool_names)
  logM "INFO" "🎯 Calling Decision Maker..."
  let decision ← callExt Event.decide env.makeDecision
  let dec ← liftE (pyIndex decision "decision")
  let tool_name ← liftE (pyIndex dec "tool_name")
  let arguments ← liftE (pyIndex dec "arguments")
  let reasoning ← liftE (pyIndex dec "reasoning")
  logM "SUCCESS" ("✅ Decision made: Tool=" ++ pyToStr tool_name ++
    ", Reasoning=" ++ pyToStr reasoning)
  logM "INFO" ("⚙️ Calling tool: " ++ pyToStr tool_name ++
    " with arguments: " ++ jsonDumps arguments)
  let payloadStr ← callExt Event.toolCall (call_tool_with_session env)
  logM "SUCCESS" "✅ Tool execution completed"
  let payload0 ← parsePayload env payloadStr
  let payload := if isDict payload0 then Json.arr [payload0] else payload0
  reportPayload payload
  logM "SUCCESS" "✅ Recommendation request completed successfully"
  M.pure (successBody payload reasoning mem_id gem_perception, 200)

/-- The `/recommend` handler body inside the `try` block (lines 73-228):
log the arrival, read the body, extract and strip the four fields, validate,
then run the pipeline. -/
def recommendM (env : Env) (req : Option PyDict) : M (Json × Nat) := do
  logM "INFO" "🎵 New recommendation request received"
  let data ← getJsonAttr req
  let mood ← liftE (stripAttr (pyGet data "mood" (Json.str "")))
  let activity ← liftE (stripAttr (pyGet data "activity" (Json.str "")))
  let current_loc ← liftE (stripAttr (pyGet data "location" (Json.str "")))
  let tags_raw ← liftE (stripAttr (pyGet data "tags" (Json.str "")))
  logM "INFO" ("📝 User Input - Mood: " ++ mood ++ ", Activity: " ++ activity ++
    ", Location: " ++ current_loc ++ ", Tags: " ++ tags_raw)
  if mood = "" ∨ activity = "" then do
    logM "ERROR" "❌ Validation failed: Mood and activity are required"
    M.pure (Json.obj [("error", Json.str "Mood and activity are required.")], 400)
  else
    pipeline env mood activity current_loc tags_raw

/-- The full `/recommend` handler (lines 70-232): the `try` body, with the
`except Exception` block logging the exception and converting it to an HTTP
500 response carrying `str(e)` under the `error` key.  The result is the
event trace of the request together with the response body and status. -/
def recommend (env : Env) (req : Option PyDict) : List Event × (Json × Nat) :=
  match recommendM env req [] with
  | (evs, Except.ok r) => (evs, r)
  | (evs, Except.error e) =>
    (evs ++ [Event.log "ERROR" ("❌ Exception occurred: " ++ e.msg)],
     (Json.obj [("error", Json.str e.msg)], 500))

-- ### Concrete instances used by witnesses and counterexamples

/-- A sample log entry. -/
def entryA : LogEntry := ⟨"2026-10-12 00:00:00.000", "INFO", "a", Json.null⟩

/-- A second sample log entry. -/
def entryB : LogEntry := ⟨"2026-10-12 00:00:01.000", "INFO", "b", Json.null⟩

/-- An environment in which every collaborator call succeeds and the tool
returns a string that is not valid JSON. -/
def envParseFail : Env := {
  addMemory := Except.ok "mem_1"
  perceiveUserInput := Except.ok "\x7b\x7d"
  perceiveGemini := Except.ok (Json.obj [])
  listSessionStart := Except.ok ()
  listToolsResult := Except.ok
    [⟨"play_song", some "plays a song",
      Json.obj [("properties", Json.obj [("song", Json.obj [("type", Json.str "string")])])]⟩]
  makeDecision := Except.ok (Json.obj [("decision", Json.obj
    [("tool_name", Json.str "play_song"), ("arguments", Json.obj []),
     ("reasoning", Json.str "fits the mood")])])
  callSessionStart := Except.ok ()
  callToolResult := Except.ok [⟨some "oops not json", "ci"⟩]
  parseJson := fun _ => none }

/-- `envParseFail` with a `json.loads` oracle that parses the tool result as
a single JSON object. -/
def envObjPayload : Env :=
  { envParseFail with
    callToolResult := Except.ok [⟨some "obj", "ci"⟩]
    parseJson := fun s =>
      if s = "obj" then some (Json.obj [("song", Json.str "X"), ("artist", Json.str "Y")])
      else none }

/-- `envParseFail` with a `json.loads` oracle that parses the tool result as
a JSON array. -/
def envArrPayload : Env :=
  { envParseFail with
    callToolResult := Except.ok [⟨some "arr", "ci"⟩]
    parseJson := fun s =>
      if s = "arr" then some (Json.arr [Json.obj [("song", Json.str "X"), ("artist", Json.str "Y")]])
      else none }

/-- An environment in which starting the tool subprocess fails with a plain
`FileNotFoundError` (the exception `stdio_client` surfaces when the `python`
executable cannot be spawned). -/
def envSpawnFail : Env :=
  { envParseFail with
    listSessionStart := Except.error (PyErr.other "FileNotFoundError: python")
    callSessionStart := Except.error (PyErr.other "FileNotFoundError: python") }

/-- An environment in which the memory write raises. -/
def envMemFail : Env :=
  { envParseFail with addMemory := Except.error (PyErr.other "boom") }

/-- A well-formed request body. -/
def reqGood : PyDict := [("mood", Json.str "happy"), ("activity", Json.str "run")]

/-- A request body whose mood is whitespace only. -/
def reqMissingMood : PyDict := [("mood", Json.str "   "), ("activity", Json.str "run")]

/-- Does an `Except` result hold a `CommunicationError`? -/
def isCommErr : Except PyErr α → Bool
  | Except.error (PyErr.communicationError _) => true
  | _ => false

/-- Does an `Except` result hold a `ToolInvocationError`? -/
def isToolInvErr : Except PyErr α → Bool
  | Except.error (PyErr.toolInvocationError _) => true
  | _ => false

/-- Proof-side helper: prepend `x` to the first piece of a split. -/
def prependHead (x : List Char) : List (List Char) → List (List Char)
  | [] => []
  | t :: ts => (x ++ t) :: ts

-- ## Theorems

/-! ### Reduction lemmas for the handler monad -/

theorem M_bind_eq (m : M α) (f : α → M β) : m >>= f = M.bind m f := rfl

theorem M_pure_eq (a : α) : (pure a : M α) = M.pure a := rfl

@[simp] theorem M_pure_apply (a : α) (evs : List Event) :
    M.pure a evs = (evs, Except.ok a) := rfl

@[simp] theorem M_bind_apply (m : M α) (f : α → M β) (evs : List Event) :
    M.bind m f evs =
      match m evs with
      | (evs', Except.ok a) => f a evs'
      | (evs', Except.error e) => (evs', Except.error e) := rfl

@[simp] theorem logM_apply (level message : String) (evs : List Event) :
    logM level message evs = (evs ++ [Event.log level message], Except.ok ()) := rfl

@[simp] theorem liftE_apply (x : Except PyErr α) (evs : List Event) :
    liftE x evs = (evs, x) := rfl

@[simp] theorem callExt_apply (ev : Event) (x : Except PyErr α) (evs : List Event) :
    callExt ev x evs = (evs ++ [ev], x) := rfl

@[simp] theorem M_ite_apply (c : Prop) [Decidable c] (a b : M α) (evs : List Event) :
    (if c then a else b) evs = if c then a evs else b evs := by
  by_cases h : c <;> simp [h]

/-- C1: a `/recommend` request whose mood or activity is empty after trimming
(or absent) is answered with HTTP 400 and the body
`{"error": "Mood and activity are required."}`, and the handler performs
nothing beyond its three log appends: no memory, perception, tool-session or
decision-maker collaborator is invoked (the result does not even depend on
`env`). -/
theorem validation_failure_returns_400_and_touches_only_logs
    (env : Env) (data : PyDict) (mood activity current_loc tags_raw : String)
    (hm : stripAttr (pyGet data "mood" (Json.str "")) = Except.ok mood)
    (ha : stripAttr (pyGet data "activity" (Json.str "")) = Except.ok activity)
    (hl : stripAttr (pyGet data "location" (Json.str "")) = Except.ok current_loc)
    (ht : stripAttr (pyGet data "tags" (Json.str "")) = Except.ok tags_raw)
    (hv : mood = "" ∨ activity = "") :
    recommend env (some data) =
      ([Event.log "INFO" "🎵 New recommendation request received",
        Event.log "INFO" ("📝 User Input - Mood: " ++ mood ++ ", Activity: " ++
          activity ++ ", Location: " ++ current_loc ++ ", Tags: " ++ tags_raw),
        Event.log "ERROR" "❌ Validation failed: Mood and activity are required"],
       (Json.obj [("error", Json.str "Mood and activity are required.")], 400)) := by
  unfold recommend recommendM getJsonAttr
  simp only [M_bind_eq, M_pure_eq, M_bind_apply, M_pure_apply, logM_apply,
    liftE_apply, M_ite_apply, hm, ha, hl, ht]
  rcases hv with h | h <;> subst h <;> simp

/-- Witness for C1 at a concrete request: mood `"   "`, activity `"run"`. -/
theorem validation_failure_returns_400_and_touches_only_logs_witness :
    recommend envParseFail (some reqMissingMood) =
      ([Event.log "INFO" "🎵 New recommendation request received",
        Event.log "INFO" ("📝 User Input - Mood: " ++ "" ++ ", Activity: " ++
          "run" ++ ", Location: " ++ "" ++ ", Tags: " ++ ""),
        Event.log "ERROR" "❌ Validation failed: Mood and activity are required"],
       (Json.obj [("error", Json.str "Mood and activity are required.")], 400)) :=
  validation_failure_returns_400_and_touches_only_logs envParseFail reqMissingMood
    "" "run" "" "" rfl rfl rfl rfl (Or.inl rfl)


/-- C10: a `POST /recommend` whose body is absent or not parseable as JSON
makes `request.json` `None`; the first attribute access raises
`AttributeError`, which the generic handler converts to HTTP 500 (not the 400
validation response), with the exception text under the `error` key. -/
theorem missing_body_returns_500_not_400 (env : Env) :
    recommend env none =
      ([Event.log "INFO" "🎵 New recommendation request received",
        Event.log "ERROR"
          ("❌ Exception occurred: " ++ "'NoneType' object has no attribute 'get'")],
       (Json.obj [("error", Json.str "'NoneType' object has no attribute 'get'")],
        500)) := rfl

/-- C8: `get_logs` is non-destructive: the buffer is unchanged by the call,
and two successive calls with the same limit return identical results. -/
theorem get_logs_nondestructive (logs : List LogEntry) (limit : Int) :
    (get_logs_op logs limit).2 = logs ∧
    (get_logs_op ((get_logs_op logs limit).2) limit).1 = (get_logs_op logs limit).1 :=
  ⟨rfl, rfl⟩

/-- C9: `get_logs(0)` evaluates `list(logs)[-0:]`, the whole list, so
`GET /logs?limit=0` returns every stored entry and reports the full count. -/
theorem get_logs_zero_returns_whole_buffer (logs : List LogEntry) :
    get_logs logs 0 = logs ∧
    get_logs_endpoint logs 0 =
      Json.obj [("logs", Json.arr (logs.map logEntryToJson)),
                ("count", Json.num logs.length)] := by
  have h : get_logs logs 0 = logs := by
    unfold get_logs pySliceFrom
    simp only [neg_zero]
    rw [if_neg (lt_irrefl 0), min_eq_right (Int.ofNat_nonneg logs.length)]
    simp
  exact ⟨h, by unfold get_logs_endpoint; rw [h]⟩

/-! ### Lemmas about the bounded ring buffer -/

theorem dequeAppend_length_le (cap : Nat) (buf : List LogEntry) (x : LogEntry)
    (h : buf.length ≤ cap) : (dequeAppend cap buf x).length ≤ cap := by
  unfold dequeAppend
  simp only [List.length_drop, List.length_append, List.length_singleton]
  omega

set_option maxRecDepth 4000 in
theorem foldl_dequeAppend_length_le (entries acc : List LogEntry)
    (h : acc.length ≤ 1000) :
    (entries.foldl (dequeAppend 1000) acc).length ≤ 1000 := by
  induction entries generalizing acc with
  | nil => simpa using h
  | cons e es ih =>
    rw [List.foldl_cons]
    exact ih (dequeAppend 1000 acc e) (dequeAppend_length_le 1000 acc e h)

theorem dequeAppend_at_capacity (buf : List LogEntry) (x : LogEntry)
    (h : buf.length = 1000) : dequeAppend 1000 buf x = buf.tail ++ [x] := by
  unfold dequeAppend
  have h1 : (buf ++ [x]).length - 1000 = 1 := by simp [h]
  rw [h1, List.drop_append_of_le_length (by omega), List.drop_one]

theorem get_logs_pos_le_and_suffix (buf : List LogEntry) (N : Int) (h : 1 ≤ N) :
    ((get_logs buf N).length : Int) ≤ N ∧ (get_logs buf N) <:+ buf := by
  unfold get_logs pySliceFrom
  have hneg : -N < 0 := by omega
  rw [if_pos hneg]
  constructor
  · rw [List.length_drop]
    rcases le_or_lt (↑buf.length + -N) 0 with hc | hc
    · rw [max_eq_left hc]
      simp only [Int.toNat_zero, Nat.sub_zero]
      omega
    · rw [max_eq_right (le_of_lt hc)]
      have ht : ((↑buf.length + -N : Int).toNat : Int) = ↑buf.length + -N :=
        Int.toNat_of_nonneg (le_of_lt hc)
      omega
  · exact ⟨List.take (max 0 (↑buf.length + -N)).toNat buf,
      List.take_append_drop _ buf⟩

/-- C2 (amended): every sequence of appends keeps the buffer within 1000
entries; an append at capacity evicts exactly the oldest entry (FIFO); and
for every positive `N`, `recent(N)` returns at most `N` entries, a suffix of
the buffer (the most recently appended, in insertion order).  The positivity
bound is forced by `get_logs(0)`, which returns the whole buffer. -/
theorem log_buffer_capacity_fifo_and_recent :
    (∀ entries : List LogEntry,
      (entries.foldl (dequeAppend 1000) []).length ≤ 1000) ∧
    (∀ (buf : List LogEntry) (x : LogEntry), buf.length = 1000 →
      dequeAppend 1000 buf x = buf.tail ++ [x]) ∧
    (∀ (buf : List LogEntry) (N : Int), 1 ≤ N →
      ((get_logs buf N).length : Int) ≤ N ∧ (get_logs buf N) <:+ buf) :=
  ⟨fun entries => foldl_dequeAppend_length_le entries [] (by simp),
   dequeAppend_at_capacity,
   get_logs_pos_le_and_suffix⟩

/-- Counterexample to C2 as stated: at `N = 0`, `recent(0)` returns the whole
buffer (here one entry), not at most `0` entries. -/
theorem log_buffer_recent_zero_counterexample :
    ¬ (((get_logs [entryA] 0).length : Int) ≤ 0) := by
  have h : get_logs [entryA] 0 = [entryA] := rfl
  rw [h]
  norm_num

/-- Witness for the amended C2 at concrete inputs. -/
theorem log_buffer_capacity_fifo_and_recent_witness :
    ([entryA, entryB].foldl (dequeAppend 1000) []).length ≤ 1000 ∧
    dequeAppend 1000 (List.replicate 1000 entryA) entryB =
      (List.replicate 1000 entryA).tail ++ [entryB] ∧
    ((get_logs [entryA, entryB] 1).length : Int) ≤ 1 ∧
    (get_logs [entryA, entryB] 1) <:+ [entryA, entryB] :=
  ⟨log_buffer_capacity_fifo_and_recent.1 [entryA, entryB],
   log_buffer_capacity_fifo_and_recent.2.1 _ entryB (by rw [List.length_replicate]),
   (log_buffer_capacity_fifo_and_recent.2.2 [entryA, entryB] 1 le_rfl).1,
   (log_buffer_capacity_fifo_and_recent.2.2 [entryA, entryB] 1 le_rfl).2⟩

/-! ### Lemmas about the tag tokenizer -/

theorem splitKeepP_ne_nil (p : Char → Bool) (cs : List Char) :
    splitKeepP p cs ≠ [] := by
  cases cs with
  | nil => simp [splitKeepP]
  | cons a as =>
    cases hp : p a <;> simp only [splitKeepP, hp]
    · cases h : splitKeepP p as <;> simp
    · simp

theorem splitKeepP_cons_pos {p : Char → Bool} {a : Char} (as : List Char)
    (hp : p a = true) : splitKeepP p (a :: as) = [] :: splitKeepP p as := by
  conv_lhs => unfold splitKeepP
  rw [hp]
  simp

theorem splitKeepP_cons_neg {p : Char → Bool} {a : Char} {as t0 : List Char}
    (ts : List (List Char)) (hp : p a = false)
    (hsk : splitKeepP p as = t0 :: ts) :
    splitKeepP p (a :: as) = (a :: t0) :: ts := by
  conv_lhs => unfold splitKeepP
  rw [hp, hsk]
  simp

theorem splitKeepP_tokens_no_sep (p : Char → Bool) (cs : List Char) :
    ∀ t ∈ splitKeepP p cs, ∀ c ∈ t, p c = false := by
  induction cs with
  | nil =>
    intro t ht c hc
    simp only [splitKeepP, List.mem_singleton] at ht
    subst ht
    simp at hc
  | cons a as ih =>
    intro t ht c hc
    cases hp : p a with
    | true =>
      rw [splitKeepP_cons_pos as hp, List.mem_cons] at ht
      rcases ht with h | h
      · subst h; simp at hc
      · exact ih t h c hc
    | false =>
      cases hsk : splitKeepP p as with
      | nil => exact absurd hsk (splitKeepP_ne_nil p as)
      | cons t0 ts =>
        rw [splitKeepP_cons_neg ts hp hsk, List.mem_cons] at ht
        rcases ht with h | h
        · subst h
          rcases List.mem_cons.mp hc with h | h
          · subst h; exact hp
          · exact ih t0 (hsk ▸ List.mem_cons_self t0 ts) c h
        · exact ih t (hsk ▸ List.mem_cons_of_mem t0 h) c hc

theorem dropWhile_eq_self_of_head {p : Char → Bool} (l : List Char)
    (h : ∀ a, l.head? = some a → p a = false) : l.dropWhile p = l := by
  cases l with
  | nil => rfl
  | cons a as => simp [List.dropWhile_cons, h a rfl]

theorem head?_dropWhile_false (p : Char → Bool) (l : List Char) :
    ∀ a, (l.dropWhile p).head? = some a → p a = false := by
  induction l with
  | nil => intro a ha; simp at ha
  | cons b bs ih =>
    intro a ha
    by_cases hp : p b
    · rw [List.dropWhile_cons, if_pos hp] at ha
      exact ih a ha
    · rw [List.dropWhile_cons, if_neg hp] at ha
      simp only [List.head?_cons, Option.some_inj] at ha
      subst ha
      simpa using hp

theorem pyStripChars_eq_self (t : List Char)
    (h : ∀ c ∈ t, c.isWhitespace = false) : pyStripChars t = t := by
  unfold pyStripChars
  rw [dropWhile_eq_self_of_head t (fun a ha => h a (List.mem_of_mem_head? ha))]
  rw [dropWhile_eq_self_of_head t.reverse
    (fun a ha => h a (List.mem_reverse.mp (List.mem_of_mem_head? ha)))]
  exact List.reverse_reverse t

theorem pyStripChars_idem (l : List Char) :
    pyStripChars (pyStripChars l) = pyStripChars l := by
  unfold pyStripChars
  cases hB : (l.dropWhile Char.isWhitespace).reverse.dropWhile Char.isWhitespace with
  | nil => simp
  | cons b bs =>
    have hhead : ∀ a, (b :: bs).head? = some a → a.isWhitespace = false := by
      intro a ha
      exact head?_dropWhile_false Char.isWhitespace
        (l.dropWhile Char.isWhitespace).reverse a (hB ▸ ha)
    obtain ⟨pre, hpre⟩ := List.dropWhile_suffix
      (p := Char.isWhitespace) (l := (l.dropWhile Char.isWhitespace).reverse)
    rw [hB] at hpre
    have hlast : (b :: bs).getLast? = (l.dropWhile Char.isWhitespace).head? := by
      rw [← List.getLast?_reverse (l.dropWhile Char.isWhitespace), ← hpre,
        List.getLast?_append_of_ne_nil pre (by simp)]
    have hlastw : ∀ a, (b :: bs).getLast? = some a → a.isWhitespace = false := by
      intro a ha
      rw [hlast] at ha
      exact head?_dropWhile_false _ _ a ha
    rw [dropWhile_eq_self_of_head (b :: bs).reverse (fun a ha => by
      rw [List.head?_reverse] at ha
      exact hlastw a ha)]
    rw [List.reverse_reverse]
    rw [dropWhile_eq_self_of_head (b :: bs) hhead]

theorem filterMap_strip_eq (l : List (List Char)) :
    l.filterMap (fun t => if (pyStripChars t).isEmpty then none
      else some (pyStripChars t)) =
    ((l.map pyStripChars).filter (fun t => !t.isEmpty)) := by
  induction l with
  | nil => rfl
  | cons t ts ih =>
    by_cases h : pyStripChars t = []
    · simpa [List.filterMap_cons, List.filter_cons, h] using ih
    · simpa [List.filterMap_cons, List.filter_cons, h] using ih

theorem prependHead_nil_eq (l : List (List Char)) : prependHead [] l = l := by
  cases l <;> simp [prependHead]

theorem prependHead_cons (x t : List Char) (ts : List (List Char)) :
    prependHead x (t :: ts) = (x ++ t) :: ts := rfl

theorem wsSplitAux_cons_true {a : Char} (cs acc : List Char)
    (hw : a.isWhitespace = true) :
    wsSplitAux (a :: cs) acc =
      if acc.isEmpty then wsSplitAux cs [] else acc.reverse :: wsSplitAux cs [] := by
  conv_lhs => unfold wsSplitAux
  rw [hw]
  simp

theorem wsSplitAux_cons_false {a : Char} (cs acc : List Char)
    (hw : a.isWhitespace = false) :
    wsSplitAux (a :: cs) acc = wsSplitAux cs (a :: acc) := by
  conv_lhs => unfold wsSplitAux
  rw [hw]
  simp

theorem wsSplitAux_eq (cs : List Char) : ∀ acc : List Char,
    wsSplitAux cs acc =
      (prependHead acc.reverse (splitKeepP Char.isWhitespace cs)).filter
        (fun l => !l.isEmpty) := by
  induction cs with
  | nil =>
    intro acc
    cases acc with
    | nil => rfl
    | cons x xs =>
      show (if (x :: xs).isEmpty then [] else [(x :: xs).reverse]) = _
      simp [splitKeepP, prependHead, List.filter_cons]
  | cons a as ih =>
    intro acc
    cases hw : a.isWhitespace with
    | true =>
      rw [wsSplitAux_cons_true as acc hw, splitKeepP_cons_pos as hw]
      by_cases hacc : acc = []
      · subst hacc
        simp [ih, prependHead_nil_eq, prependHead_cons, List.filter_cons]
      · simp [ih, prependHead_nil_eq, prependHead_cons, List.filter_cons, hacc]
    | false =>
      rw [wsSplitAux_cons_false as acc hw, ih (a :: acc)]
      cases hsk : splitKeepP Char.isWhitespace as with
      | nil => exact absurd hsk (splitKeepP_ne_nil _ as)
      | cons t0 ts =>
        rw [splitKeepP_cons_neg ts hw hsk]
        simp [prependHead_cons, List.append_assoc]

theorem pySplitWsChars_eq (cs : List Char) :
    pySplitWsChars cs =
      (splitKeepP Char.isWhitespace cs).filter (fun l => !l.isEmpty) := by
  unfold pySplitWsChars
  rw [wsSplitAux_eq cs [], List.reverse_nil, prependHead_nil_eq]

/-- C7: the tag tokenizer splits on commas when the string contains a comma
and on whitespace otherwise; every produced token is trimmed (fixed by
stripping) and nonempty, empty and whitespace-only tokens are discarded, and
the order of the remaining tokens is preserved — i.e. the tokenizer equals
the spec-side split-trim-discard formulation `claimTokens`. -/
theorem tags_tokenization_matches_spec (cs : List Char) :
    parseTagsChars cs = claimTokens cs ∧
    ∀ t ∈ parseTagsChars cs, pyStripChars t = t ∧ t ≠ [] := by
  have hmain : parseTagsChars cs = claimTokens cs := by
    unfold parseTagsChars claimTokens pySplitCommaChars
    by_cases hc : ',' ∈ cs
    · rw [if_pos hc, if_pos hc, filterMap_strip_eq]
    · rw [if_neg hc, if_neg hc, filterMap_strip_eq, pySplitWsChars_eq]
      have hstrip : ∀ t ∈ splitKeepP Char.isWhitespace cs, pyStripChars t = t :=
        fun t ht => pyStripChars_eq_self t (splitKeepP_tokens_no_sep _ cs t ht)
      have hmap2 : ((splitKeepP Char.isWhitespace cs).filter
          (fun l => !l.isEmpty)).map pyStripChars =
          (splitKeepP Char.isWhitespace cs).filter (fun l => !l.isEmpty) :=
        (List.map_congr_left fun t ht =>
          hstrip t (List.mem_of_mem_filter ht)).trans
          (List.map_id _)
      have hmap1 : (splitKeepP Char.isWhitespace cs).map pyStripChars =
          splitKeepP Char.isWhitespace cs :=
        (List.map_congr_left fun t ht => hstrip t ht).trans (List.map_id _)
      rw [hmap2, hmap1, List.filter_filter]
      simp
  refine ⟨hmain, ?_⟩
  intro t ht
  unfold parseTagsChars at ht
  obtain ⟨u, _, hu⟩ := List.mem_filterMap.mp ht
  by_cases h : (pyStripChars u).isEmpty
  · rw [if_pos h] at hu
    exact absurd hu (by simp)
  · rw [if_neg h] at hu
    have ht' : t = pyStripChars u := (Option.some_inj.mp hu).symm
    subst ht'
    refine ⟨pyStripChars_idem u, fun hnil => ?_⟩
    rw [hnil] at h
    simp at h

/-- Witness for C7 at the concrete string `"a, ,b c"` and its first token. -/
theorem tags_tokenization_matches_spec_witness :
    parseTagsChars [Char.ofNat 97, ',', ' ', ',', 'b', ' ', 'c'] =
      claimTokens [Char.ofNat 97, ',', ' ', ',', 'b', ' ', 'c'] ∧
    pyStripChars [Char.ofNat 97] = [Char.ofNat 97] ∧
    [Char.ofNat 97] ≠ ([] : List Char) := by
  have h := tags_tokenization_matches_spec [Char.ofNat 97, ',', ' ', ',', 'b', ' ', 'c']
  have hm : [Char.ofNat 97] ∈
      parseTagsChars [Char.ofNat 97, ',', ' ', ',', 'b', ' ', 'c'] := by decide
  exact ⟨h.1, (h.2 [Char.ofNat 97] hm).1, (h.2 [Char.ofNat 97] hm).2⟩

/-! ### The remote tool session (C5) -/

/-- C5 (amended): the two session helpers introduce no error wrapping of
their own — `get_tools_list` fails with exactly the exception raised by the
underlying channel/handshake step or by the catalog request, and
`call_tool_with_session` fails with exactly the exception raised by its
channel/handshake step or by the tool invocation; no `CommunicationError` or
`ToolInvocationError` class is raised at this layer. -/
theorem tool_session_errors_propagate_unchanged (env : Env) (e : PyErr) :
    (get_tools_list env = Except.error e ↔
      (env.listSessionStart = Except.error e ∨
       (env.listSessionStart = Except.ok () ∧
        env.listToolsResult = Except.error e))) ∧
    (call_tool_with_session env = Except.error e ↔
      (env.callSessionStart = Except.error e ∨
       (env.callSessionStart = Except.ok () ∧
        env.callToolResult = Except.error e))) := by
  constructor
  · unfold get_tools_list
    cases h : env.listSessionStart with
    | error e' => simp [h]
    | ok u => cases u; simp [h]
  · unfold call_tool_with_session
    cases h : env.callSessionStart with
    | error e' => simp [h]
    | ok u =>
      cases u
      cases h2 : env.callToolResult with
      | error e' => simp [h, h2]
      | ok content => cases content <;> simp [h, h2]

/-- Counterexample to C5 as stated: when spawning the tool subprocess fails
with a plain `FileNotFoundError`, `get_tools_list` surfaces exactly that
exception — not a `CommunicationError` — and `call_tool_with_session`
surfaces it too — not a `ToolInvocationError`. -/
theorem tool_session_typed_errors_counterexample :
    get_tools_list envSpawnFail =
      Except.error (PyErr.other "FileNotFoundError: python") ∧
    isCommErr (get_tools_list envSpawnFail) = false ∧
    call_tool_with_session envSpawnFail =
      Except.error (PyErr.other "FileNotFoundError: python") ∧
    isToolInvErr (call_tool_with_session envSpawnFail) = false :=
  ⟨rfl, rfl, rfl, rfl⟩

/-- Witness for the amended C5 at a concrete environment. -/
theorem tool_session_errors_propagate_unchanged_witness :
    get_tools_list envSpawnFail =
      Except.error (PyErr.other "FileNotFoundError: python") ∧
    call_tool_with_session envSpawnFail =
      Except.error (PyErr.other "FileNotFoundError: python") :=
  ⟨(tool_session_errors_propagate_unchanged envSpawnFail
      (PyErr.other "FileNotFoundError: python")).1.mpr (Or.inl rfl),
   (tool_session_errors_propagate_unchanged envSpawnFail
      (PyErr.other "FileNotFoundError: python")).2.mpr (Or.inl rfl)⟩

/-! ### Response-shape lemmas for the `/recommend` handler (C6) -/

theorem pipeline_ok_shape (env : Env) (mood activity current_loc tags_raw : String)
    (evs0 evs : List Event) (body : Json) (st : Nat)
    (h : pipeline env mood activity current_loc tags_raw evs0 =
      (evs, Except.ok (body, st))) :
    st = 200 ∧ ∃ pay rs mid per, body = successBody pay rs mid per := by
  unfold pipeline reportPayload parsePayload at h
  simp only [M_bind_eq, M_pure_eq, M_bind_apply, M_pure_apply, logM_apply,
    liftE_apply, callExt_apply, M_ite_apply] at h
  repeat' split at h
  all_goals (
    injection h with h1 h2
    first
      | (injection h2 with h3
         injection h3 with h4 h5
         exact ⟨h5.symm, _, _, _, _, h4.symm⟩)
      | injection h2)

theorem recommendM_ok_shape (env : Env) (req : Option PyDict)
    (evs0 evs : List Event) (body : Json) (st : Nat)
    (h : recommendM env req evs0 = (evs, Except.ok (body, st))) :
    (st = 400 ∧
     body = Json.obj [("error", Json.str "Mood and activity are required.")]) ∨
    (st = 200 ∧ ∃ pay rs mid per, body = successBody pay rs mid per) := by
  unfold recommendM getJsonAttr at h
  simp only [M_bind_eq, M_pure_eq, M_bind_apply, M_pure_apply, logM_apply,
    liftE_apply, callExt_apply, M_ite_apply] at h
  repeat' split at h
  all_goals first
    | (injection h with h1 h2
       first
         | (injection h2 with h3
            injection h3 with h4 h5
            exact Or.inl ⟨h5.symm, h4.symm⟩)
         | injection h2)
    | exact Or.inr (pipeline_ok_shape env _ _ _ _ _ evs body st h)

/-- C6: any uncaught failure at any step makes the handler return HTTP 500
with the failure's `str(e)` under the `error` key, and an HTTP 200 response
is always the complete five-field success body — no partial-success response
is ever returned. -/
theorem uncaught_failure_500_no_partial_success (env : Env) (req : Option PyDict) :
    (∀ evs e, recommendM env req [] = (evs, Except.error e) →
      recommend env req =
        (evs ++ [Event.log "ERROR" ("❌ Exception occurred: " ++ e.msg)],
         (Json.obj [("error", Json.str e.msg)], 500))) ∧
    (∀ evs body, recommend env req = (evs, (body, 200)) →
      ∃ pay rs mid per, body = successBody pay rs mid per) := by
  constructor
  · intro evs e h
    unfold recommend
    rw [h]
  · intro evs body h
    unfold recommend at h
    rcases hr : recommendM env req [] with ⟨evs', r⟩
    rw [hr] at h
    cases r with
    | ok v =>
      rcases v with ⟨b, st⟩
      simp only [Prod.mk.injEq] at h
      rcases h with ⟨hevs, hb, hst⟩
      rcases recommendM_ok_shape env req [] evs' b st hr with ⟨h400, _⟩ | ⟨h200, hshape⟩
      · omega
      · subst hb
        exact hshape
    | error e =>
      simp only [Prod.mk.injEq] at h
      rcases h with ⟨hevs, hb, hst⟩
      omega

/-- Witness for C6: a concrete environment whose memory write raises `boom`
yields HTTP 500 with `{"error": "boom"}` after the three prefix logs and the
memory-write event. -/
theorem uncaught_failure_500_no_partial_success_witness :
    recommend envMemFail (some reqGood) =
      ([Event.log "INFO" "🎵 New recommendation request received",
        Event.log "INFO" ("📝 User Input - Mood: happy, Activity: run, " ++
          "Location: , Tags: "),
        Event.log "INFO" "💾 Storing inputs in memory...",
        Event.memWrite,
        Event.log "ERROR" "❌ Exception occurred: boom"],
       (Json.obj [("error", Json.str "boom")], 500)) := by
  have h := (uncaught_failure_500_no_partial_success envMemFail (some reqGood)).1
    ([Event.log "INFO" "🎵 New recommendation request received",
      Event.log "INFO" ("📝 User Input - Mood: happy, Activity: run, " ++
        "Location: , Tags: "),
      Event.log "INFO" "💾 Storing inputs in memory...",
      Event.memWrite])
    (PyErr.other "boom") rfl
  simpa using h

/-- C3: when every step up to the tool invocation succeeds but the tool
result string is not valid JSON, the request still succeeds: HTTP 200 with
`recommendations = []`, the parse failure is logged at WARNING level, and no
ERROR-level entry is logged during the request. -/
theorem malformed_tool_json_warns_and_returns_200_empty
    (env : Env) (data : PyDict) (mood activity current_loc tags_raw : String)
    (mid ui : String) (gem : Json) (tools : List Tool)
    (dec d tn args rs : Json) (p : String)
    (hm : stripAttr (pyGet data "mood" (Json.str "")) = Except.ok mood)
    (ha : stripAttr (pyGet data "activity" (Json.str "")) = Except.ok activity)
    (hl : stripAttr (pyGet data "location" (Json.str "")) = Except.ok current_loc)
    (ht : stripAttr (pyGet data "tags" (Json.str "")) = Except.ok tags_raw)
    (hm0 : mood ≠ "") (ha0 : activity ≠ "")
    (h1 : env.addMemory = Except.ok mid)
    (h2 : env.perceiveUserInput = Except.ok ui)
    (h3 : env.perceiveGemini = Except.ok gem)
    (h4 : get_tools_list env = Except.ok tools)
    (h5 : env.makeDecision = Except.ok dec)
    (h6 : pyIndex dec "decision" = Except.ok d)
    (h7 : pyIndex d "tool_name" = Except.ok tn)
    (h8 : pyIndex d "arguments" = Except.ok args)
    (h9 : pyIndex d "reasoning" = Except.ok rs)
    (h10 : call_tool_with_session env = Except.ok p)
    (h11 : env.parseJson p = none) :
    (recommend env (some data)).2 = (successBody (Json.arr []) rs mid gem, 200) ∧
    Event.log "WARNING" ("⚠️ Failed to parse payload as JSON: " ++ p) ∈
      (recommend env (some data)).1 ∧
    "ERROR" ∉ levelsOf ((recommend env (some data)).1) := by
  unfold recommend recommendM pipeline parsePayload reportPayload getJsonAttr
  simp only [M_bind_eq, M_pure_eq, M_bind_apply, M_pure_apply, logM_apply,
    liftE_apply, callExt_apply, M_ite_apply, hm, ha, hl, ht,
    h1, h2, h3, h4, h5, h6, h7, h8, h9, h10, h11]
  simp [hm0, ha0, pyTruthy, isDict, levelsOf, eventLevel]

/-- Witness for C3 at the concrete environment `envParseFail`. -/
theorem malformed_tool_json_warns_and_returns_200_empty_witness :
    (recommend envParseFail (some reqGood)).2 =
      (successBody (Json.arr []) (Json.str "fits the mood") "mem_1"
        (Json.obj []), 200) ∧
    Event.log "WARNING" ("⚠️ Failed to parse payload as JSON: " ++ "oops not json") ∈
      (recommend envParseFail (some reqGood)).1 ∧
    "ERROR" ∉ levelsOf ((recommend envParseFail (some reqGood)).1) :=
  malformed_tool_json_warns_and_returns_200_empty envParseFail reqGood
    "happy" "run" "" "" "mem_1" "\x7b\x7d" (Json.obj [])
    [⟨"play_song", some "plays a song",
      Json.obj [("properties", Json.obj [("song", Json.obj [("type", Json.str "string")])])]⟩]
    (Json.obj [("decision", Json.obj
      [("tool_name", Json.str "play_song"), ("arguments", Json.obj []),
       ("reasoning", Json.str "fits the mood")])])
    (Json.obj [("tool_name", Json.str "play_song"), ("arguments", Json.obj []),
       ("reasoning", Json.str "fits the mood")])
    (Json.str "play_song") (Json.obj []) (Json.str "fits the mood")
    "oops not json"
    rfl rfl rfl rfl (by decide) (by decide)
    rfl rfl rfl rfl rfl rfl rfl rfl rfl rfl rfl

/-- C4: when every step up to the tool invocation succeeds, a tool result
that parses to a single JSON object is wrapped into a one-element list in the
`recommendations` field, and a result that parses to a JSON array is passed
through as-is.  In both cases the response is HTTP 200. -/
theorem tool_payload_object_wrapped_array_as_is
    (env : Env) (data : PyDict) (mood activity current_loc tags_raw : String)
    (mid ui : String) (gem : Json) (tools : List Tool)
    (dec d tn args rs : Json) (p : String)
    (hm : stripAttr (pyGet data "mood" (Json.str "")) = Except.ok mood)
    (ha : stripAttr (pyGet data "activity" (Json.str "")) = Except.ok activity)
    (hl : stripAttr (pyGet data "location" (Json.str "")) = Except.ok current_loc)
    (ht : stripAttr (pyGet data "tags" (Json.str "")) = Except.ok tags_raw)
    (hm0 : mood ≠ "") (ha0 : activity ≠ "")
    (h1 : env.addMemory = Except.ok mid)
    (h2 : env.perceiveUserInput = Except.ok ui)
    (h3 : env.perceiveGemini = Except.ok gem)
    (h4 : get_tools_list env = Except.ok tools)
    (h5 : env.makeDecision = Except.ok dec)
    (h6 : pyIndex dec "decision" = Except.ok d)
    (h7 : pyIndex d "tool_name" = Except.ok tn)
    (h8 : pyIndex d "arguments" = Except.ok args)
    (h9 : pyIndex d "reasoning" = Except.ok rs)
    (h10 : call_tool_with_session env = Except.ok p) :
    (∀ kvs, env.parseJson p = some (Json.obj kvs) →
      (recommend env (some data)).2 =
        (successBody (Json.arr [Json.obj kvs]) rs mid gem, 200)) ∧
    (∀ xs, env.parseJson p = some (Json.arr xs) →
      (recommend env (some data)).2 =
        (successBody (Json.arr xs) rs mid gem, 200)) := by
  constructor
  · intro kvs h11
    unfold recommend recommendM pipeline parsePayload reportPayload getJsonAttr
    simp only [M_bind_eq, M_pure_eq, M_bind_apply, M_pure_apply, logM_apply,
      liftE_apply, callExt_apply, M_ite_apply, hm, ha, hl, ht,
      h1, h2, h3, h4, h5, h6, h7, h8, h9, h10, h11]
    simp [hm0, ha0, pyTruthy, isDict, pyGetItem0, pyLen]
  · intro xs h11
    unfold recommend recommendM pipeline parsePayload reportPayload getJsonAttr
    simp only [M_bind_eq, M_pure_eq, M_bind_apply, M_pure_apply, logM_apply,
      liftE_apply, callExt_apply, M_ite_apply, hm, ha, hl, ht,
      h1, h2, h3, h4, h5, h6, h7, h8, h9, h10, h11]
    cases xs with
    | nil => simp [hm0, ha0, pyTruthy, isDict, pyLen]
    | cons x0 rest =>
      cases x0 <;> simp [hm0, ha0, pyTruthy, isDict, pyGetItem0, pyLen]

/-- Witness for C4: one environment whose tool result parses to a single
object (wrapped), one whose result parses to an array (passed as-is). -/
theorem tool_payload_object_wrapped_array_as_is_witness :
    (recommend envObjPayload (some reqGood)).2 =
      (successBody (Json.arr [Json.obj [("song", Json.str "X"), ("artist", Json.str "Y")]])
        (Json.str "fits the mood") "mem_1" (Json.obj []), 200) ∧
    (recommend envArrPayload (some reqGood)).2 =
      (successBody (Json.arr [Json.obj [("song", Json.str "X"), ("artist", Json.str "Y")]])
        (Json.str "fits the mood") "mem_1" (Json.obj []), 200) :=
  ⟨(tool_payload_object_wrapped_array_as_is envObjPayload reqGood
      "happy" "run" "" "" "mem_1" "\x7b\x7d" (Json.obj [])
      [⟨"play_song", some "plays a song",
        Json.obj [("properties", Json.obj [("song", Json.obj [("type", Json.str "string")])])]⟩]
      (Json.obj [("decision", Json.obj
        [("tool_name", Json.str "play_song"), ("arguments", Json.obj []),
         ("reasoning", Json.str "fits the mood")])])
      (Json.obj [("tool_name", Json.str "play_song"), ("arguments", Json.obj []),
         ("reasoning", Json.str "fits the mood")])
      (Json.str "play_song") (Json.obj []) (Json.str "fits the mood") "obj"
      rfl rfl rfl rfl (by decide) (by decide)
      rfl rfl rfl rfl rfl rfl rfl rfl rfl rfl).1
      [("song", Json.str "X"), ("artist", Json.str "Y")] rfl,
   (tool_payload_object_wrapped_array_as_is envArrPayload reqGood
      "happy" "run" "" "" "mem_1" "\x7b\x7d" (Json.obj [])
      [⟨"play_song", some "plays a song",
        Json.obj [("properties", Json.obj [("song", Json.obj [("type", Json.str "string")])])]⟩]
      (Json.obj [("decision", Json.obj
        [("tool_name", Json.str "play_song"), ("arguments", Json.obj []),
         ("reasoning", Json.str "fits the mood")])])
      (Json.obj [("tool_name", Json.str "play_song"), ("arguments", Json.obj []),
         ("reasoning", Json.str "fits the mood")])
      (Json.str "play_song") (Json.obj []) (Json.str "fits the mood") "arr"
      rfl rfl rfl rfl (by decide) (by decide)
      rfl rfl rfl rfl rfl rfl rfl rfl rfl rfl).2
      [Json.obj [("song", Json.str "X"), ("artist", Json.str "Y")]] rfl⟩
